import Mathlib

/-!
# go-platform: instrumented request pipeline and outcome simulator

A shallow embedding of `src/main.go`: the weighted outcome selection of
`simulateExternalAPICall`, its per-outcome response, the trace id helper
`getTraceID`, the handler `healthCheck` and the middleware
`prometheusMiddleware`, followed by the properties established about them.
-/

set_option autoImplicit false

namespace GoPlatform

/-! ## Weighted selection (main.go, lines 137-156) -/

/-- The slice `scenarios := []int{200, 401, 500, 0}`; 0 represents timeout. -/
def scenarios : List Int := [200, 401, 500, 0]

/-- The slice `weights := []int{60, 15, 20, 5}`. -/
def weights : List Int := [60, 15, 20, 5]

/-- The loop `for _, w := range weights { totalWeight += w }`, started at 0. -/
def totalWeight : Int := weights.foldl (fun acc w => acc + w) 0

/-- How the selection loop was left. -/
inductive LoopExit where
  /-- The `break` was taken after `selectedScenario = scenarios[i]`. -/
  | broke (selected : Int)
  /-- The range ran to its end without the `break`. -/
  | fellThrough
  /-- The index expression `scenarios[i]` was out of range. -/
  | indexOutOfRange
  deriving DecidableEq

/-- The loop `for i, w := range weights { cumulative += w; if r < cumulative
{ selectedScenario = scenarios[i]; break } }`, over the remaining weights `ws`,
at index `i` with the running value of `cumulative`. -/
def selectLoop (scen : List Int) (r : Int) : List Int → Nat → Int → LoopExit
  | [], _, _ => LoopExit.fellThrough
  | w :: ws, i, cumulative =>
    let cumulative := cumulative + w
    if r < cumulative then
      match scen[i]? with
      | some s => LoopExit.broke s
      | none => LoopExit.indexOutOfRange
    else selectLoop scen r ws (i + 1) cumulative

/-- The value of `selectedScenario` after the loop: it starts at 200 and is
overwritten only when the `break` is taken. -/
def selectedScenario (r : Int) : Int :=
  match selectLoop scenarios r weights 0 0 with
  | LoopExit.broke s => s
  | _ => 200

/-- The table of (scenario, weight) pairs as the specification lists it. -/
def specTable : List (Int × Int) := [(200, 60), (401, 15), (500, 20), (0, 5)]

/-- The selection in the words of the specification: the first entry of a
table whose cumulative weight exceeds `r`, if there is one; `acc` is the weight
accumulated before the table's first entry. -/
def specFirstExceeding (r : Int) : List (Int × Int) → Int → Option Int
  | [], _ => none
  | (s, w) :: rest, acc =>
    if r < acc + w then some s else specFirstExceeding r rest (acc + w)

/-! ## JSON values, errors and the request context -/

/-- A value handed to `c.JSON`: strings, integers and `fiber.Map` objects
(fields in the order of the map literal). -/
inductive Json where
  | str (s : String)
  | num (n : Int)
  | obj (fields : List (String × Json))

/-- A `fiber.Map` literal: keys with their values. -/
abbrev FiberMap := List (String × Json)

/-- The value stored under key `k`, if the map has that key. -/
def lookupField (k : String) : FiberMap → Option Json
  | [] => none
  | (k', v) :: rest => if k' = k then some v else lookupField k rest

/-- The keys of a map, in the order of its literal. -/
def fieldNames (m : FiberMap) : List String := m.map Prod.fst

/-- The fields of a JSON object; a string or a number has none. -/
def Json.fields : Json → FiberMap
  | Json.obj fs => fs
  | _ => []

/-- A Go `error` value: a `*fiber.Error` with its status code, or any other
error. -/
inductive GoError where
  | fiberError (code : Int) (message : String)
  | other (message : String)
  deriving DecidableEq

/-- The text of `err.Error()`. -/
def GoError.message : GoError → String
  | GoError.fiberError _ m => m
  | GoError.other m => m

/-- The body of the response: nothing yet, a JSON document, or plain text. -/
inductive Body where
  | empty
  | json (v : Json)
  | text (s : String)

/-- The fields of the JSON document in the body; none when the body is not a
JSON object. -/
def Body.fields : Body → FiberMap
  | Body.json v => v.fields
  | _ => []

/-- A trace id: the array `[16]byte`. -/
structure TraceID where
  bytes : List (Fin 256)
  size : bytes.length = 16

/-- A span id: the array `[8]byte`. -/
structure SpanID where
  bytes : List (Fin 256)
  size : bytes.length = 8

/-- The identifying part of a span context. -/
structure SpanContext where
  traceID : TraceID
  spanID : SpanID

/-- The id is valid when it is not the all-zero array. -/
def TraceID.IsValid (t : TraceID) : Bool := t.bytes.any (fun b => b != 0)

/-- The id is valid when it is not the all-zero array. -/
def SpanID.IsValid (s : SpanID) : Bool := s.bytes.any (fun b => b != 0)

/-- The method `SpanContext.IsValid`: both ids are valid. -/
def SpanContext.IsValid (sc : SpanContext) : Bool :=
  sc.traceID.IsValid && sc.spanID.IsValid

/-- The zero span context, which a context without a span yields. -/
def SpanContext.zero : SpanContext :=
  { traceID := { bytes := List.replicate 16 0, size := by decide },
    spanID := { bytes := List.replicate 8 0, size := by decide } }

/-- One lower-case hexadecimal digit. -/
def hexDigit (n : Nat) : Char :=
  if n < 10 then Char.ofNat (48 + n) else Char.ofNat (87 + n)

/-- The two hexadecimal digits of a byte. -/
def hexByte (b : Fin 256) : List Char := [hexDigit (b.val / 16), hexDigit (b.val % 16)]

/-- The method `TraceID.String`: the lower-case hexadecimal encoding of the 16
bytes. -/
def TraceID.String (t : TraceID) : String := String.mk (t.bytes.flatMap hexByte)

/-- The request context `*fiber.Ctx`, as far as the handlers read and write
it. `statusCode` is the response header's raw field, 0 while no status has
been set. -/
structure Ctx where
  method : String
  path : String
  userContext : Option SpanContext
  statusCode : Int
  contentType : String
  body : Body

/-- The getter `c.Response().StatusCode()`: 200 while no status has been set. -/
def Ctx.StatusCode (c : Ctx) : Int := if c.statusCode = 0 then 200 else c.statusCode

/-- The setter `c.Status(status)`. -/
def Ctx.Status (c : Ctx) (status : Int) : Ctx := { c with statusCode := status }

/-- The call `c.JSON(data)` with the default encoder: the body becomes the
document and the content type `application/json`; encoding a map of strings,
integers and such maps yields no error. -/
def Ctx.JSON (c : Ctx) (data : Json) : Ctx × Option GoError :=
  ({ c with body := Body.json data, contentType := "application/json" }, none)

/-- The context the router hands to the handler chain for a request: nothing
of the response is set yet. -/
def newCtx (method path : String) (userContext : Option SpanContext) : Ctx :=
  { method := method, path := path, userContext := userContext,
    statusCode := 0, contentType := "", body := Body.empty }

def StatusRequestTimeout : Int := 408
def StatusUnauthorized : Int := 401
def StatusInternalServerError : Int := 500

/-- The span context of `oteltrace.SpanFromContext(c.UserContext())`. -/
def spanContextOf (c : Ctx) : SpanContext := c.userContext.getD SpanContext.zero

/-- The function `getTraceID` (main.go, lines 95-105), without its log lines. -/
def getTraceID (c : Ctx) : String :=
  if (spanContextOf c).IsValid then (spanContextOf c).traceID.String
  else "test-trace-id-12345"

/-! ## Metrics, clock, random source -/

/-- A `prometheus.CounterVec`: the count held for each tuple of label values. -/
abbrev CounterVec := List String → Nat

/-- The call `cv.WithLabelValues(lvs...).Inc()`. -/
def CounterVec.Inc (cv : CounterVec) (lvs : List String) : CounterVec :=
  fun l => if l = lvs then cv l + 1 else cv l

/-- A `prometheus.HistogramVec`: the values observed for each tuple of label
values, latest first. An observed duration is kept in nanoseconds; the program
hands over the same duration as fractional seconds. -/
abbrev HistogramVec := List String → List Int

/-- The call `hv.WithLabelValues(lvs...).Observe(v)`. -/
def HistogramVec.Observe (hv : HistogramVec) (lvs : List String) (v : Int) : HistogramVec :=
  fun l => if l = lvs then v :: hv l else hv l

/-- The three instruments declared at main.go, lines 33-58. -/
structure Registry where
  requestsTotal : CounterVec
  requestDuration : HistogramVec
  externalAPIRequests : CounterVec

/-- The state of the shared source of `math/rand`: the seed it was last seeded
with and the number of values drawn since. -/
structure Rand where
  seed : Int
  pos : Nat
  deriving DecidableEq

/-- The call `rand.Seed(seed)`: the source restarts from the given seed. -/
def Rand.Seed (seed : Int) : Rand := { seed := seed, pos := 0 }

/-- What the program reads from outside: `gen seed i` is the i-th raw value the
random source yields after seeding with `seed`, and `clock k` is the reading of
the k-th call of `time.Now()`, in nanoseconds since the epoch. -/
structure Env where
  gen : Int → Nat → Nat
  clock : Nat → Int

/-- Everything the handlers change besides the request context. `slept` lists
the arguments of the `time.Sleep` calls in nanoseconds, latest first;
`spanAttrs` lists the attributes set on the span of the simulated call;
`drawn` lists the values `rand.Intn` has handed out, latest first. -/
structure World where
  rand : Rand
  reg : Registry
  nowCalls : Nat
  slept : List Int
  spanAttrs : List (String × Json)
  drawn : List Int

/-- The call `time.Now()`, as nanoseconds since the epoch. -/
def timeNow (env : Env) (w : World) : Int × World :=
  (env.clock w.nowCalls, { w with nowCalls := w.nowCalls + 1 })

/-- The call `rand.Intn(n)` for a positive `n`, as at all three call sites: a
value in `[0, n)` drawn from the shared source, which advances. -/
def randIntn (env : Env) (w : World) (n : Int) : Int × World :=
  let v : Int := ((env.gen w.rand.seed w.rand.pos % n.toNat : Nat) : Int)
  (v, { w with rand := { w.rand with pos := w.rand.pos + 1 }, drawn := v :: w.drawn })

/-- The call `time.Sleep(d)`. -/
def timeSleep (w : World) (d : Int) : World := { w with slept := d :: w.slept }

/-- The call `span.SetAttributes(attrs...)`. -/
def setAttributes (w : World) (attrs : List (String × Json)) : World :=
  { w with spanAttrs := w.spanAttrs ++ attrs }

/-- The call `externalAPIRequests.WithLabelValues(label).Inc()`. -/
def incExternal (w : World) (label : String) : World :=
  { w with reg := { w.reg with
      externalAPIRequests := w.reg.externalAPIRequests.Inc [label] } }

def Millisecond : Int := 1000000
def Second : Int := 1000 * Millisecond

/-- The decimal text of an integer, as `strconv.Itoa` and `%d` give it. -/
def itoa (n : Int) : String := toString n

/-! ## Handlers -/

/-- How a handler was left: by `return`, with its error value, or by a panic. -/
inductive Exit where
  | returned (err : Option GoError)
  | panicked (value : String)
  deriving DecidableEq

/-- The result of running a handler. -/
structure Outcome where
  ctx : Ctx
  world : World
  exit : Exit

/-- A `fiber.Handler`, run on a context in a world. -/
abbrev Handler := Ctx → World → Outcome

/-- The `case 0` branch of the switch of `simulateExternalAPICall` (main.go,
lines 166-174). -/
def respondTimeout (traceID : String) (c : Ctx) (w : World) : Outcome :=
  let w := timeSleep w (6 * Second)
  let w := incExternal w "timeout"
  let w := setAttributes w [("error", Json.str "timeout")]
  let res := (c.Status StatusRequestTimeout).JSON (Json.obj [
    ("error", Json.str "External API timeout"),
    ("code", Json.str "TIMEOUT"),
    ("traceId", Json.str traceID)])
  { ctx := res.1, world := w, exit := Exit.returned res.2 }

/-- The `case 401` branch (main.go, lines 175-182). -/
def respondUnauthorized (traceID : String) (c : Ctx) (w : World) : Outcome :=
  let w := incExternal w "401"
  let w := setAttributes w [("error", Json.str "unauthorized")]
  let res := (c.Status StatusUnauthorized).JSON (Json.obj [
    ("error", Json.str "External API unauthorized"),
    ("code", Json.str "UNAUTHORIZED"),
    ("traceId", Json.str traceID)])
  { ctx := res.1, world := w, exit := Exit.returned res.2 }

/-- The `case 500` branch (main.go, lines 183-190). -/
def respondServerError (traceID : String) (c : Ctx) (w : World) : Outcome :=
  let w := incExternal w "500"
  let w := setAttributes w [("error", Json.str "internal_server_error")]
  let res := (c.Status StatusInternalServerError).JSON (Json.obj [
    ("error", Json.str "External API internal server error"),
    ("code", Json.str "INTERNAL_ERROR"),
    ("traceId", Json.str traceID)])
  { ctx := res.1, world := w, exit := Exit.returned res.2 }

/-- The `default` branch (main.go, lines 191-204). -/
def respondSuccess (env : Env) (traceID : String) (c : Ctx) (w : World) : Outcome :=
  let drawDelay := randIntn env w 3000
  let delay := drawDelay.1 + 100
  let w := timeSleep drawDelay.2 (delay * Millisecond)
  let w := incExternal w "200"
  let w := setAttributes w [("response.delay_ms", Json.num delay)]
  let now := timeNow env w
  let drawID := randIntn env now.2 10000
  let res := c.JSON (Json.obj [
    ("message", Json.str "External API call successful"),
    ("traceId", Json.str traceID),
    ("data", Json.obj [
      ("timestamp", Json.num (now.1 / 1000000000)),
      ("delay_ms", Json.num delay),
      ("random_id", Json.num drawID.1)])])
  { ctx := res.1, world := drawID.2, exit := Exit.returned res.2 }

/-- The switch of `simulateExternalAPICall` (main.go, lines 165-205) on the
selected scenario `sel`, with the trace id already fetched. -/
def respond (env : Env) (sel : Int) (traceID : String) (c : Ctx) (w : World) : Outcome :=
  if sel = 0 then respondTimeout traceID c w
  else if sel = 401 then respondUnauthorized traceID c w
  else if sel = 500 then respondServerError traceID c w
  else respondSuccess env traceID c w

/-- The weighted draw of `simulateExternalAPICall` (main.go, lines 140-156): the
source is seeded from the clock, `r` is drawn below `totalWeight`, and the loop
selects the scenario. -/
def drawScenario (env : Env) (w : World) : Int × World :=
  let now := timeNow env w
  let w := { now.2 with rand := Rand.Seed now.1 }
  let draw := randIntn env w totalWeight
  (selectedScenario draw.1, draw.2)

/-- The handler `simulateExternalAPICall` (main.go, lines 132-206). -/
def simulateExternalAPICall (env : Env) : Handler := fun c w =>
  let draw := drawScenario env w
  let sel := draw.1
  let w := setAttributes draw.2 [
    ("external.api.scenario", Json.str (itoa sel)),
    ("external.api.url", Json.str ("https://httpbin.org/status/" ++ itoa sel))]
  let traceID := getTraceID c
  respond env sel traceID c w

/-- The handler `healthCheck` (main.go, lines 208-220). -/
def healthCheck (env : Env) : Handler := fun c w =>
  let traceID := getTraceID c
  let now := timeNow env w
  let res := c.JSON (Json.obj [
    ("status", Json.str "healthy"),
    ("timestamp", Json.num (now.1 / 1000000000)),
    ("service", Json.str "go-platform-api"),
    ("version", Json.str "1.0.0"),
    ("traceId", Json.str traceID),
    ("test", Json.str "added-field")])
  { ctx := res.1, world := now.2, exit := Exit.returned res.2 }

/-- The label values `c.Method(), c.Path(), status` of the middleware. -/
def requestLabels (c : Ctx) : List String := [c.method, c.path, itoa c.StatusCode]

/-- The handler returned by `prometheusMiddleware` (main.go, lines 107-121);
`next` is the rest of the chain, run by `c.Next()`. The statements after
`c.Next()` are not deferred: when `next` panics, the panic leaves the function
at that call. -/
def prometheusMiddleware (env : Env) (next : Handler) : Handler := fun c w =>
  let start := timeNow env w
  let out := next c start.2
  match out.exit with
  | Exit.panicked v => { ctx := out.ctx, world := out.world, exit := Exit.panicked v }
  | Exit.returned err =>
    let c := out.ctx
    let stop := timeNow env out.world
    let duration := stop.1 - start.1
    let status := itoa c.StatusCode
    let w := stop.2
    let w := { w with reg := { w.reg with
      requestsTotal := w.reg.requestsTotal.Inc [c.method, c.path, status] } }
    let w := { w with reg := { w.reg with
      requestDuration := w.reg.requestDuration.Observe [c.method, c.path, status] duration } }
    { ctx := c, world := w, exit := Exit.returned err }

/-- The middleware `recover.New()` of the framework: a panic of the rest of the
chain becomes a returned error. -/
def recoverMiddleware (next : Handler) : Handler := fun c w =>
  let out := next c w
  match out.exit with
  | Exit.panicked v => { out with exit := Exit.returned (some (GoError.other v)) }
  | Exit.returned _ => out

/-- The framework's default error handler: the status is the code of a
`*fiber.Error` and 500 for any other error, the body is the error text. -/
def defaultErrorHandler (c : Ctx) (err : GoError) : Ctx :=
  let code : Int := match err with
    | GoError.fiberError code _ => code
    | GoError.other _ => StatusInternalServerError
  { c.Status code with contentType := "text/plain; charset=utf-8", body := Body.text err.message }

/-- What the framework does with a chain of handlers for one request: it runs
the chain and passes a returned error to the error handler. -/
def serve (chain : Handler) (c : Ctx) (w : World) : Outcome :=
  let out := chain c w
  match out.exit with
  | Exit.returned (some err) => { out with ctx := defaultErrorHandler out.ctx err }
  | _ => out

/-- The handler of `loggerMiddleware()` (main.go, lines 123-130), which is the
framework's `logger.New`, as far as it decides status and error: after the rest
of the chain it hands a returned error to the error handler and returns nil; a
panic passes through. Its log line and its clock readings are left out. -/
def loggerMiddleware (next : Handler) : Handler := fun c w =>
  let out := next c w
  match out.exit with
  | Exit.returned (some err) =>
    { ctx := defaultErrorHandler out.ctx err, world := out.world, exit := Exit.returned none }
  | _ => out

/-- The handler of `otelfiber.Middleware()` (main.go, line 241), as far as it
decides status and error: after the rest of the chain it hands a returned error
to the error handler of the app and returns nil; a panic passes through. The
span it starts and stores in the user context is the one `c.userContext`
holds. -/
def otelfiberMiddleware (next : Handler) : Handler := fun c w =>
  let out := next c w
  match out.exit with
  | Exit.returned (some err) =>
    { ctx := defaultErrorHandler out.ctx err, world := out.world, exit := Exit.returned none }
  | _ => out

/-- The stages `main` registers up to `prometheusMiddleware()` (main.go, lines
238-240), in their order, around whatever `c.Next()` of the metrics middleware
runs: `recover.New()`, `loggerMiddleware()`, `prometheusMiddleware()`. -/
def outerChain (env : Env) (next : Handler) : Handler :=
  recoverMiddleware (loggerMiddleware (prometheusMiddleware env next))

/-- The chain registered in `main` (main.go, lines 238-241) in front of the
routes: `recover.New()`, `loggerMiddleware()`, `prometheusMiddleware()`,
`otelfiber.Middleware()`; `route` is what the router runs behind them. -/
def mainChain (env : Env) (route : Handler) : Handler :=
  outerChain env (otelfiberMiddleware route)

/-- The values `rand.Intn` handed out between the world `w` and the outcome
`out` of a handler started in `w`, latest first. -/
def newDraws (w : World) (out : Outcome) : List Int :=
  out.world.drawn.take (out.world.drawn.length - w.drawn.length)

/-- The values an invocation of `simulateExternalAPICall` draws after seeding
with `seed`, latest first: the weighted draw, and on the success branch the
delay draw and the id draw. -/
def drawsOfSeed (gen : Int → Nat → Nat) (seed : Int) : List Int :=
  let r : Int := ((gen seed 0 % 100 : Nat) : Int)
  if selectedScenario r = 200 then
    [((gen seed 2 % 10000 : Nat) : Int), ((gen seed 1 % 3000 : Nat) : Int), r]
  else [r]

/-! ## Sample inputs -/

/-- A registry in which nothing has been counted or observed. -/
def emptyRegistry : Registry :=
  { requestsTotal := fun _ => 0, requestDuration := fun _ => [],
    externalAPIRequests := fun _ => 0 }

/-- A world at process start, with the random source in the state `rand`. -/
def startWorld (rand : Rand) : World :=
  { rand := rand, reg := emptyRegistry, nowCalls := 0, slept := [],
    spanAttrs := [], drawn := [] }

/-- An environment whose random source always yields `raw` and whose clock
reads `t` at every call. -/
def constEnv (raw : Nat) (t : Int) : Env := { gen := fun _ _ => raw, clock := fun _ => t }

/-- A handler that panics at once. -/
def panickingHandler : Handler := fun c w =>
  { ctx := c, world := w, exit := Exit.panicked "boom" }

/-- A handler that returns a `*fiber.Error` with code 404 and sets no status,
as the router does for a path without a route. -/
def notFoundHandler : Handler := fun c w =>
  { ctx := c, world := w,
    exit := Exit.returned (some (GoError.fiberError 404 ("Cannot " ++ c.method ++ " " ++ c.path))) }

/-! ## Weighted selection: properties -/

theorem totalWeight_eq : totalWeight = 100 := by decide

/-- The selected scenario is always one of the four table entries. -/
theorem selectedScenario_cases (r : Int) :
    selectedScenario r = 200 ∨ selectedScenario r = 401 ∨
      selectedScenario r = 500 ∨ selectedScenario r = 0 := by
  simp only [selectedScenario, selectLoop, scenarios, weights]
  split_ifs <;> simp

/-- C1: for every draw `r` with `0 <= r < totalWeight` the loop leaves by its
`break`, the selected scenario is the first entry of the table
[(200,60),(401,15),(500,20),(0,5)] whose cumulative weight exceeds `r`, and it
is 200 below 60, 401 from 60 below 75, 500 from 75 below 95 and 0 from 95 below
100. -/
theorem selectLoop_selects_first_exceeding (r : Int) (h0 : 0 ≤ r) (h1 : r < totalWeight) :
    totalWeight = 100 ∧
    specTable = List.zip scenarios weights ∧
    selectLoop scenarios r weights 0 0 = LoopExit.broke (selectedScenario r) ∧
    specFirstExceeding r specTable 0 = some (selectedScenario r) ∧
    selectedScenario r =
      (if r < 60 then 200 else if r < 75 then 401 else if r < 95 then 500 else 0) := by
  have ht : totalWeight = 100 := totalWeight_eq
  rw [ht] at h1
  refine ⟨ht, by decide, ?_, ?_, ?_⟩
  · simp only [selectedScenario, selectLoop, scenarios, weights]
    split_ifs <;> first | rfl | omega
  · simp only [selectedScenario, selectLoop, scenarios, weights, specFirstExceeding, specTable]
    split_ifs <;> first | rfl | omega
  · simp only [selectedScenario, selectLoop, scenarios, weights]
    split_ifs <;> first | rfl | omega

theorem selectLoop_selects_first_exceeding_witness :
    (0 : Int) ≤ 74 ∧ (74 : Int) < totalWeight ∧
    selectLoop scenarios 74 weights 0 0 = LoopExit.broke 401 ∧ selectedScenario 74 = 401 :=
  ⟨by decide, by decide,
    by
      have h := selectLoop_selects_first_exceeding 74 (by decide) (by decide)
      rw [h.2.2.2.2] at h
      exact h.2.2.1,
    by
      have h := selectLoop_selects_first_exceeding 74 (by decide) (by decide)
      exact h.2.2.2.2⟩

/-- C2: among the 100 draws `r` in `[0, 100)`, exactly 60 select 200, exactly
15 select 401, exactly 20 select 500 and exactly 5 select 0, each count being
the weight of the scenario out of the total weight 100. -/
theorem selection_counts_match_weights :
    totalWeight = 100 ∧
    ((List.range 100).filter (fun r : Nat => selectedScenario r = 200)).length = 60 ∧
    ((List.range 100).filter (fun r : Nat => selectedScenario r = 401)).length = 15 ∧
    ((List.range 100).filter (fun r : Nat => selectedScenario r = 500)).length = 20 ∧
    ((List.range 100).filter (fun r : Nat => selectedScenario r = 0)).length = 5 := by
  refine ⟨totalWeight_eq, ?_, ?_, ?_, ?_⟩ <;> decide

/-! ## The simulated call: properties -/

/-- The scenario selected by an invocation started in world `w`. -/
theorem drawScenario_fst (env : Env) (w : World) :
    (drawScenario env w).1 =
      selectedScenario ((env.gen (env.clock w.nowCalls) 0 % 100 : Nat) : Int) := by
  simp [drawScenario, timeNow, randIntn, Rand.Seed, totalWeight_eq]

theorem drawScenario_cases (env : Env) (w : World) :
    (drawScenario env w).1 = 200 ∨ (drawScenario env w).1 = 401 ∨
      (drawScenario env w).1 = 500 ∨ (drawScenario env w).1 = 0 := by
  rw [drawScenario_fst]; exact selectedScenario_cases _

theorem simulate_of_success (env : Env) (c : Ctx) (w : World)
    (h : (drawScenario env w).1 = 200) :
    simulateExternalAPICall env c w =
      respondSuccess env (getTraceID c) c
        (setAttributes (drawScenario env w).2 [
          ("external.api.scenario", Json.str (itoa 200)),
          ("external.api.url", Json.str ("https://httpbin.org/status/" ++ itoa 200))]) := by
  simp [simulateExternalAPICall, respond, h]

theorem simulate_of_unauthorized (env : Env) (c : Ctx) (w : World)
    (h : (drawScenario env w).1 = 401) :
    simulateExternalAPICall env c w =
      respondUnauthorized (getTraceID c) c
        (setAttributes (drawScenario env w).2 [
          ("external.api.scenario", Json.str (itoa 401)),
          ("external.api.url", Json.str ("https://httpbin.org/status/" ++ itoa 401))]) := by
  simp [simulateExternalAPICall, respond, h]

theorem simulate_of_server_error (env : Env) (c : Ctx) (w : World)
    (h : (drawScenario env w).1 = 500) :
    simulateExternalAPICall env c w =
      respondServerError (getTraceID c) c
        (setAttributes (drawScenario env w).2 [
          ("external.api.scenario", Json.str (itoa 500)),
          ("external.api.url", Json.str ("https://httpbin.org/status/" ++ itoa 500))]) := by
  simp [simulateExternalAPICall, respond, h]

theorem simulate_of_timeout (env : Env) (c : Ctx) (w : World)
    (h : (drawScenario env w).1 = 0) :
    simulateExternalAPICall env c w =
      respondTimeout (getTraceID c) c
        (setAttributes (drawScenario env w).2 [
          ("external.api.scenario", Json.str (itoa 0)),
          ("external.api.url", Json.str ("https://httpbin.org/status/" ++ itoa 0))]) := by
  simp [simulateExternalAPICall, respond, h]

/-- C3: on the context of a request, success gives status 200 and a body
without a `code` field, unauthorized gives 401 with code "UNAUTHORIZED",
server_error gives 500 with code "INTERNAL_ERROR", timeout gives 408 with code
"TIMEOUT"; the handler returns what the JSON write returns, which is no
error. -/
theorem simulate_status_and_code (env : Env) (method path : String)
    (uc : Option SpanContext) (w : World) :
    (((drawScenario env w).1 = 200 ∧
        (simulateExternalAPICall env (newCtx method path uc) w).ctx.StatusCode = 200 ∧
        lookupField "code"
          (simulateExternalAPICall env (newCtx method path uc) w).ctx.body.fields = none) ∨
     ((drawScenario env w).1 = 401 ∧
        (simulateExternalAPICall env (newCtx method path uc) w).ctx.StatusCode = 401 ∧
        lookupField "code"
          (simulateExternalAPICall env (newCtx method path uc) w).ctx.body.fields
            = some (Json.str "UNAUTHORIZED")) ∨
     ((drawScenario env w).1 = 500 ∧
        (simulateExternalAPICall env (newCtx method path uc) w).ctx.StatusCode = 500 ∧
        lookupField "code"
          (simulateExternalAPICall env (newCtx method path uc) w).ctx.body.fields
            = some (Json.str "INTERNAL_ERROR")) ∨
     ((drawScenario env w).1 = 0 ∧
        (simulateExternalAPICall env (newCtx method path uc) w).ctx.StatusCode = 408 ∧
        lookupField "code"
          (simulateExternalAPICall env (newCtx method path uc) w).ctx.body.fields
            = some (Json.str "TIMEOUT"))) ∧
    (simulateExternalAPICall env (newCtx method path uc) w).exit = Exit.returned none ∧
    ∃ c1 data,
      (simulateExternalAPICall env (newCtx method path uc) w).ctx = (Ctx.JSON c1 data).1 ∧
      (simulateExternalAPICall env (newCtx method path uc) w).exit
        = Exit.returned (Ctx.JSON c1 data).2 := by
  obtain h | h | h | h := drawScenario_cases env w
  · rw [simulate_of_success env _ w h]
    exact ⟨Or.inl ⟨h, rfl, rfl⟩, rfl, _, _, rfl, rfl⟩
  · rw [simulate_of_unauthorized env _ w h]
    exact ⟨Or.inr (Or.inl ⟨h, rfl, rfl⟩), rfl, _, _, rfl, rfl⟩
  · rw [simulate_of_server_error env _ w h]
    exact ⟨Or.inr (Or.inr (Or.inl ⟨h, rfl, rfl⟩)), rfl, _, _, rfl, rfl⟩
  · rw [simulate_of_timeout env _ w h]
    exact ⟨Or.inr (Or.inr (Or.inr ⟨h, rfl, rfl⟩)), rfl, _, _, rfl, rfl⟩

theorem TraceID_String_ne_empty (t : TraceID) : t.String ≠ "" := by
  obtain ⟨bytes, size⟩ := t
  cases bytes with
  | nil => simp at size
  | cons b bs =>
    intro h
    have h2 := congrArg String.data h
    simp [TraceID.String, hexByte] at h2

theorem getTraceID_ne_empty (c : Ctx) : getTraceID c ≠ "" := by
  unfold getTraceID
  split_ifs
  · exact TraceID_String_ne_empty _
  · decide

/-- C6: for every request and every outcome the body of the response of
`simulateExternalAPICall` has a `traceId` field holding a non-empty string:
the trace id of the span when the request context holds a valid span context,
the placeholder "test-trace-id-12345" otherwise. -/
theorem simulate_body_has_traceId (env : Env) (c : Ctx) (w : World) :
    lookupField "traceId" (simulateExternalAPICall env c w).ctx.body.fields
      = some (Json.str (getTraceID c)) ∧
    getTraceID c ≠ "" ∧
    getTraceID c =
      (if (spanContextOf c).IsValid = true then (spanContextOf c).traceID.String
       else "test-trace-id-12345") := by
  refine ⟨?_, getTraceID_ne_empty c, rfl⟩
  obtain h | h | h | h := drawScenario_cases env w
  · rw [simulate_of_success env _ w h]; rfl
  · rw [simulate_of_unauthorized env _ w h]; rfl
  · rw [simulate_of_server_error env _ w h]; rfl
  · rw [simulate_of_timeout env _ w h]; rfl

/-- C7: every invocation of `simulateExternalAPICall` raises the count of the
external-call counter by one on the label of the selected outcome ("200",
"401", "500" or "timeout") and leaves the count of every other label as it
was. -/
theorem simulate_increments_one_label (env : Env) (c : Ctx) (w : World) :
    ∃ label : String,
      (((drawScenario env w).1 = 200 ∧ label = "200") ∨
       ((drawScenario env w).1 = 401 ∧ label = "401") ∨
       ((drawScenario env w).1 = 500 ∧ label = "500") ∨
       ((drawScenario env w).1 = 0 ∧ label = "timeout")) ∧
      (simulateExternalAPICall env c w).world.reg.externalAPIRequests
        = w.reg.externalAPIRequests.Inc [label] ∧
      (simulateExternalAPICall env c w).world.reg.externalAPIRequests [label]
        = w.reg.externalAPIRequests [label] + 1 ∧
      ∀ l : List String, l ≠ [label] →
        (simulateExternalAPICall env c w).world.reg.externalAPIRequests l
          = w.reg.externalAPIRequests l := by
  have key : ∀ label : String,
      (simulateExternalAPICall env c w).world.reg.externalAPIRequests
        = w.reg.externalAPIRequests.Inc [label] →
      (simulateExternalAPICall env c w).world.reg.externalAPIRequests [label]
        = w.reg.externalAPIRequests [label] + 1 ∧
      ∀ l : List String, l ≠ [label] →
        (simulateExternalAPICall env c w).world.reg.externalAPIRequests l
          = w.reg.externalAPIRequests l := by
    intro label hl
    rw [hl]
    refine ⟨by simp [CounterVec.Inc], ?_⟩
    intro l hne
    simp [CounterVec.Inc, hne]
  obtain h | h | h | h := drawScenario_cases env w
  · have e : (simulateExternalAPICall env c w).world.reg.externalAPIRequests
        = w.reg.externalAPIRequests.Inc ["200"] := by
      rw [simulate_of_success env _ w h]; rfl
    exact ⟨"200", Or.inl ⟨h, rfl⟩, e, key _ e⟩
  · have e : (simulateExternalAPICall env c w).world.reg.externalAPIRequests
        = w.reg.externalAPIRequests.Inc ["401"] := by
      rw [simulate_of_unauthorized env _ w h]; rfl
    exact ⟨"401", Or.inr (Or.inl ⟨h, rfl⟩), e, key _ e⟩
  · have e : (simulateExternalAPICall env c w).world.reg.externalAPIRequests
        = w.reg.externalAPIRequests.Inc ["500"] := by
      rw [simulate_of_server_error env _ w h]; rfl
    exact ⟨"500", Or.inr (Or.inr (Or.inl ⟨h, rfl⟩)), e, key _ e⟩
  · have e : (simulateExternalAPICall env c w).world.reg.externalAPIRequests
        = w.reg.externalAPIRequests.Inc ["timeout"] := by
      rw [simulate_of_timeout env _ w h]; rfl
    exact ⟨"timeout", Or.inr (Or.inr (Or.inr ⟨h, rfl⟩)), e, key _ e⟩

/-- The delay drawn on the success branch lies in `[100, 3099]`. -/
theorem delay_bounds (env : Env) (w : World) :
    100 ≤ (randIntn env w 3000).1 + 100 ∧ (randIntn env w 3000).1 + 100 ≤ 3099 := by
  simp only [randIntn]
  have h : (3000 : Int).toNat = 3000 := by decide
  rw [h]
  omega

/-- C8: the suspension of `simulateExternalAPICall` is fixed by the outcome:
exactly 6000 milliseconds for timeout, none for unauthorized and server_error,
and for success a value `d` with `100 <= d <= 3099` milliseconds, for every
draw of the random source, the same `d` being the `delay_ms` of the body of the
status-200 response. -/
theorem simulate_suspension (env : Env) (method path : String)
    (uc : Option SpanContext) (w : World) :
    ((drawScenario env w).1 = 0 ∧
      (simulateExternalAPICall env (newCtx method path uc) w).world.slept
        = 6000 * Millisecond :: w.slept) ∨
    ((drawScenario env w).1 = 401 ∧
      (simulateExternalAPICall env (newCtx method path uc) w).world.slept = w.slept) ∨
    ((drawScenario env w).1 = 500 ∧
      (simulateExternalAPICall env (newCtx method path uc) w).world.slept = w.slept) ∨
    ((drawScenario env w).1 = 200 ∧
      ∃ d : Int, 100 ≤ d ∧ d ≤ 3099 ∧
        (simulateExternalAPICall env (newCtx method path uc) w).world.slept
          = d * Millisecond :: w.slept ∧
        (simulateExternalAPICall env (newCtx method path uc) w).ctx.StatusCode = 200 ∧
        ∃ data : FiberMap,
          lookupField "data"
            (simulateExternalAPICall env (newCtx method path uc) w).ctx.body.fields
              = some (Json.obj data) ∧
          lookupField "delay_ms" data = some (Json.num d)) := by
  obtain h | h | h | h := drawScenario_cases env w
  · rw [simulate_of_success env _ w h]
    refine Or.inr (Or.inr (Or.inr ⟨h, _, (delay_bounds env _).1, (delay_bounds env _).2,
      rfl, rfl, _, rfl, rfl⟩))
  · rw [simulate_of_unauthorized env _ w h]
    exact Or.inr (Or.inl ⟨h, rfl⟩)
  · rw [simulate_of_server_error env _ w h]
    exact Or.inr (Or.inr (Or.inl ⟨h, rfl⟩))
  · rw [simulate_of_timeout env _ w h]
    have e : 6 * Second = 6000 * Millisecond := by decide
    exact Or.inl ⟨h, by rw [← e]; rfl⟩

/-! ## The metrics middleware: properties -/

/-- C4 (as the code has it): when the delegated handler returns, with or
without an error, `prometheusMiddleware` increments the request counter once and
observes the duration once, both on the labels of the context as the handler
left it, and returns the handler's error; when the delegated handler panics,
the panic leaves the middleware and nothing is counted or observed, and the
response the client gets from the stages `main` puts around it has status
500. -/
theorem prometheus_records_once_when_handler_returns (env : Env) (next : Handler)
    (c : Ctx) (w : World) :
    match (next c (timeNow env w).2).exit with
    | Exit.returned err =>
      (prometheusMiddleware env next c w).exit = Exit.returned err ∧
      (prometheusMiddleware env next c w).world.reg.requestsTotal
        = (next c (timeNow env w).2).world.reg.requestsTotal.Inc
            (requestLabels (next c (timeNow env w).2).ctx) ∧
      (prometheusMiddleware env next c w).world.reg.requestDuration
        = (next c (timeNow env w).2).world.reg.requestDuration.Observe
            (requestLabels (next c (timeNow env w).2).ctx)
            (env.clock (next c (timeNow env w).2).world.nowCalls - env.clock w.nowCalls) ∧
      (prometheusMiddleware env next c w).world.reg.externalAPIRequests
        = (next c (timeNow env w).2).world.reg.externalAPIRequests
    | Exit.panicked v =>
      (prometheusMiddleware env next c w).exit = Exit.panicked v ∧
      (prometheusMiddleware env next c w).world = (next c (timeNow env w).2).world ∧
      (serve (outerChain env next) c w).world = (next c (timeNow env w).2).world ∧
      (serve (outerChain env next) c w).ctx.StatusCode = 500 := by
  cases h : (next c (timeNow env w).2).exit with
  | returned err =>
    simp only [prometheusMiddleware, h]
    refine ⟨?_, ?_, ?_, ?_⟩ <;> trivial
  | panicked v =>
    simp only [serve, outerChain, recoverMiddleware, loggerMiddleware, prometheusMiddleware, h]
    refine ⟨?_, ?_, ?_, ?_⟩ <;> trivial

/-- C4, as stated, fails: for a route handler that panics behind the chain of
`main` the client gets the status 500 from the recover middleware, and no
request was counted and no duration observed. -/
theorem panic_leaves_no_metric :
    (serve (mainChain (constEnv 0 0) panickingHandler)
        (newCtx "GET" "/api/external" none) (startWorld (Rand.Seed 1))).ctx.StatusCode = 500 ∧
    ∀ l : List String,
      (serve (mainChain (constEnv 0 0) panickingHandler)
        (newCtx "GET" "/api/external" none) (startWorld (Rand.Seed 1))).world.reg.requestsTotal l
          = 0 ∧
      (serve (mainChain (constEnv 0 0) panickingHandler)
        (newCtx "GET" "/api/external" none) (startWorld (Rand.Seed 1))).world.reg.requestDuration l
          = [] :=
  ⟨rfl, fun _ => ⟨rfl, rfl⟩⟩

/-- C5: for every request served through the chain of `main`, whenever the
route handler returns, with or without an error, the one counter increment and
the one histogram observation carry the same label triple, and it is the
method, path and status code of the response sent to the client; after a
returned error that response is the one the error handler wrote, and the status
it set is the one in the labels. When the route handler panics nothing is
recorded, so no label is carried. -/
theorem recorded_labels_are_those_of_the_response (env : Env) (route : Handler)
    (c : Ctx) (w : World) :
    match (route c (timeNow env w).2).exit with
    | Exit.returned err =>
      (serve (mainChain env route) c w).exit = Exit.returned none ∧
      (serve (mainChain env route) c w).ctx =
        (match err with
         | none => (route c (timeNow env w).2).ctx
         | some e => defaultErrorHandler (route c (timeNow env w).2).ctx e) ∧
      (serve (mainChain env route) c w).world.reg.requestsTotal
        = (route c (timeNow env w).2).world.reg.requestsTotal.Inc
            [(serve (mainChain env route) c w).ctx.method,
              (serve (mainChain env route) c w).ctx.path,
              itoa (serve (mainChain env route) c w).ctx.StatusCode] ∧
      (serve (mainChain env route) c w).world.reg.requestDuration
        = (route c (timeNow env w).2).world.reg.requestDuration.Observe
            [(serve (mainChain env route) c w).ctx.method,
              (serve (mainChain env route) c w).ctx.path,
              itoa (serve (mainChain env route) c w).ctx.StatusCode]
            (env.clock (route c (timeNow env w).2).world.nowCalls - env.clock w.nowCalls)
    | Exit.panicked _ =>
      (serve (mainChain env route) c w).world.reg.requestsTotal
        = (route c (timeNow env w).2).world.reg.requestsTotal ∧
      (serve (mainChain env route) c w).world.reg.requestDuration
        = (route c (timeNow env w).2).world.reg.requestDuration := by
  cases h : (route c (timeNow env w).2).exit with
  | returned err =>
    cases err with
    | none =>
      simp only [serve, mainChain, outerChain, recoverMiddleware, loggerMiddleware,
        otelfiberMiddleware, prometheusMiddleware, h]
      refine ⟨?_, ?_, ?_, ?_⟩ <;> trivial
    | some e =>
      simp only [serve, mainChain, outerChain, recoverMiddleware, loggerMiddleware,
        otelfiberMiddleware, prometheusMiddleware, h]
      refine ⟨?_, ?_, ?_, ?_⟩ <;> trivial
  | panicked v =>
    simp only [serve, mainChain, outerChain, recoverMiddleware, loggerMiddleware,
      otelfiberMiddleware, prometheusMiddleware, h]
    refine ⟨?_, ?_⟩ <;> trivial

/-- A request for a path without a route, served through the chain of `main`:
the client gets status 404 and the increment and the observation are on the
label triple with status "404". -/
theorem unrouted_request_is_labelled_404 :
    (serve (mainChain (constEnv 0 0) notFoundHandler)
        (newCtx "GET" "/nope" none) (startWorld (Rand.Seed 1))).ctx.StatusCode = 404 ∧
    (serve (mainChain (constEnv 0 0) notFoundHandler)
        (newCtx "GET" "/nope" none) (startWorld (Rand.Seed 1))).world.reg.requestsTotal
          ["GET", "/nope", "404"] = 1 ∧
    (serve (mainChain (constEnv 0 0) notFoundHandler)
        (newCtx "GET" "/nope" none) (startWorld (Rand.Seed 1))).world.reg.requestsTotal
          ["GET", "/nope", "200"] = 0 ∧
    (serve (mainChain (constEnv 0 0) notFoundHandler)
        (newCtx "GET" "/nope" none) (startWorld (Rand.Seed 1))).world.reg.requestDuration
          ["GET", "/nope", "404"] = [0] := by
  refine ⟨by decide, by decide, by decide, by decide⟩

/-! ## The health handler: properties -/

/-- C9 (as the code has it): for every request `healthCheck` responds with
status 200 and a JSON body whose fields are status, timestamp, service,
version, traceId and test, with status "healthy" and test "added-field"; the
bodies of any two calls have the same fields and agree on every field other
than timestamp and traceId. -/
theorem healthCheck_body (env₁ env₂ : Env) (m₁ p₁ m₂ p₂ : String)
    (uc₁ uc₂ : Option SpanContext) (w₁ w₂ : World) :
    (healthCheck env₁ (newCtx m₁ p₁ uc₁) w₁).ctx.StatusCode = 200 ∧
    (healthCheck env₁ (newCtx m₁ p₁ uc₁) w₁).exit = Exit.returned none ∧
    fieldNames (healthCheck env₁ (newCtx m₁ p₁ uc₁) w₁).ctx.body.fields
      = ["status", "timestamp", "service", "version", "traceId", "test"] ∧
    lookupField "status" (healthCheck env₁ (newCtx m₁ p₁ uc₁) w₁).ctx.body.fields
      = some (Json.str "healthy") ∧
    lookupField "test" (healthCheck env₁ (newCtx m₁ p₁ uc₁) w₁).ctx.body.fields
      = some (Json.str "added-field") ∧
    fieldNames (healthCheck env₁ (newCtx m₁ p₁ uc₁) w₁).ctx.body.fields
      = fieldNames (healthCheck env₂ (newCtx m₂ p₂ uc₂) w₂).ctx.body.fields ∧
    ∀ k : String, k ≠ "timestamp" → k ≠ "traceId" →
      lookupField k (healthCheck env₁ (newCtx m₁ p₁ uc₁) w₁).ctx.body.fields
        = lookupField k (healthCheck env₂ (newCtx m₂ p₂ uc₂) w₂).ctx.body.fields := by
  refine ⟨rfl, rfl, rfl, rfl, rfl, rfl, ?_⟩
  intro k h1 h2
  simp only [healthCheck, Ctx.JSON, Body.fields, Json.fields, lookupField]
  rw [if_neg (Ne.symm h1), if_neg (Ne.symm h1), if_neg (Ne.symm h2), if_neg (Ne.symm h2)]

/-- C9, as stated, fails: the body of `healthCheck` has a sixth field, `test`,
which is none of status, timestamp, service, version and traceId. -/
theorem healthCheck_has_test_field :
    lookupField "test"
      (healthCheck (constEnv 0 0) (newCtx "GET" "/health" none)
        (startWorld (Rand.Seed 1))).ctx.body.fields ≠ none ∧
    fieldNames
      (healthCheck (constEnv 0 0) (newCtx "GET" "/health" none)
        (startWorld (Rand.Seed 1))).ctx.body.fields
      ≠ ["status", "timestamp", "service", "version", "traceId"] := by
  constructor
  · intro h; exact Option.noConfusion h
  · decide

/-! ## The random draws: properties -/

theorem simulate_drawn (env : Env) (c : Ctx) (w : World) :
    (simulateExternalAPICall env c w).world.drawn
      = drawsOfSeed env.gen (env.clock w.nowCalls) ++ w.drawn := by
  have hs := drawScenario_fst env w
  obtain h | h | h | h := drawScenario_cases env w
  · rw [simulate_of_success env _ w h]
    rw [h] at hs
    have e : drawsOfSeed env.gen (env.clock w.nowCalls)
        = [((env.gen (env.clock w.nowCalls) 2 % 10000 : Nat) : Int),
            ((env.gen (env.clock w.nowCalls) 1 % 3000 : Nat) : Int),
            ((env.gen (env.clock w.nowCalls) 0 % 100 : Nat) : Int)] := by
      simp only [drawsOfSeed, ← hs, if_true]
    rw [e]; rfl
  · rw [simulate_of_unauthorized env _ w h]
    rw [h] at hs
    have e : drawsOfSeed env.gen (env.clock w.nowCalls)
        = [((env.gen (env.clock w.nowCalls) 0 % 100 : Nat) : Int)] := by
      simp only [drawsOfSeed, ← hs]; rfl
    rw [e]; rfl
  · rw [simulate_of_server_error env _ w h]
    rw [h] at hs
    have e : drawsOfSeed env.gen (env.clock w.nowCalls)
        = [((env.gen (env.clock w.nowCalls) 0 % 100 : Nat) : Int)] := by
      simp only [drawsOfSeed, ← hs]; rfl
    rw [e]; rfl
  · rw [simulate_of_timeout env _ w h]
    rw [h] at hs
    have e : drawsOfSeed env.gen (env.clock w.nowCalls)
        = [((env.gen (env.clock w.nowCalls) 0 % 100 : Nat) : Int)] := by
      simp only [drawsOfSeed, ← hs]; rfl
    rw [e]; rfl

theorem newDraws_simulate (env : Env) (c : Ctx) (w : World) :
    newDraws w (simulateExternalAPICall env c w)
      = drawsOfSeed env.gen (env.clock w.nowCalls) := by
  simp [newDraws, simulate_drawn]

/-- C10 (as the code has it): the draws of an invocation of
`simulateExternalAPICall` are fixed by the clock value with which it seeds the
source, whatever state earlier invocations left the source in: two invocations
that read the same clock value there make the same sequence of draws. -/
theorem same_clock_same_draws (env : Env) (c₁ c₂ : Ctx) (w₁ w₂ : World)
    (h : env.clock w₁.nowCalls = env.clock w₂.nowCalls) :
    newDraws w₁ (simulateExternalAPICall env c₁ w₁)
      = newDraws w₂ (simulateExternalAPICall env c₂ w₂) := by
  rw [newDraws_simulate, newDraws_simulate, h]

theorem same_clock_same_draws_witness :
    (constEnv 7 5).clock (startWorld (Rand.Seed 1)).nowCalls
      = (constEnv 7 5).clock
          (simulateExternalAPICall (constEnv 7 5) (newCtx "GET" "/api/external" none)
            (startWorld (Rand.Seed 1))).world.nowCalls ∧
    newDraws (startWorld (Rand.Seed 1))
        (simulateExternalAPICall (constEnv 7 5) (newCtx "GET" "/api/external" none)
          (startWorld (Rand.Seed 1)))
      = newDraws
          (simulateExternalAPICall (constEnv 7 5) (newCtx "GET" "/api/external" none)
            (startWorld (Rand.Seed 1))).world
          (simulateExternalAPICall (constEnv 7 5) (newCtx "GET" "/api/external" none)
            (simulateExternalAPICall (constEnv 7 5) (newCtx "GET" "/api/external" none)
              (startWorld (Rand.Seed 1))).world) :=
  ⟨rfl, same_clock_same_draws (constEnv 7 5) _ _ _ _ rfl⟩

/-- C10, as stated, fails: two invocations, one after the other, that both read
the clock value 1730000000000000000 make the same sequence of draws, whatever
values the random source yields. -/
theorem repeated_clock_repeats_draws :
    ¬ ∃ gen : Int → Nat → Nat,
      newDraws (startWorld (Rand.Seed 1))
          (simulateExternalAPICall { gen := gen, clock := fun _ => 1730000000000000000 }
            (newCtx "GET" "/api/external" none) (startWorld (Rand.Seed 1)))
        ≠ newDraws
            (simulateExternalAPICall { gen := gen, clock := fun _ => 1730000000000000000 }
              (newCtx "GET" "/api/external" none) (startWorld (Rand.Seed 1))).world
            (simulateExternalAPICall { gen := gen, clock := fun _ => 1730000000000000000 }
              (newCtx "GET" "/api/external" none)
              (simulateExternalAPICall { gen := gen, clock := fun _ => 1730000000000000000 }
                (newCtx "GET" "/api/external" none) (startWorld (Rand.Seed 1))).world) := by
  rintro ⟨gen, hne⟩
  apply hne
  rw [newDraws_simulate, newDraws_simulate]

end GoPlatform
